import Mathlib

/-!
Verification development for the Scraper_Meli repository.

Shallow Lean embedding of the ingestion pipeline:
  * `src/scraping/scraper_producto_catalogo.py` — offer parser and paginated crawler,
  * `src/scraping/procesador_datos.py`         — ingestion guard and enricher,
  * `src/analysis/generador_kpis.py`           — daily KPI aggregation and upsert.

Conventions of the embedding:
  * dates are day codes (`Nat`), prices are `ℚ` (the raw-offer table column is
    `NUMERIC(12,2) NOT NULL`, see `src/database/inicializar_db.py`);
  * the relational stores are lists of rows, SQL aggregates become list folds;
  * Python exceptions are `Except`/explicit outcome constructors;
  * the regular-expression scans of the source are implemented directly as
    character-list scanners with leftmost-match semantics, alternation trying
    the first pattern first, exactly as `re.search` does; `\s` and `\d` are
    read as whitespace and ASCII digits, case folding is ASCII `Char.toLower`
    (all inputs the claims mention are covered by this reading).
-/

/-! ## Text scanning primitives (for the `re` patterns of the source) -/

/-- Case-insensitive literal match at the head of the input: returns the rest
of the input after the literal, or `none`.  Models a literal run inside a
pattern compiled with `re.IGNORECASE`. -/
def litCI : List Char → List Char → Option (List Char)
  | [], s => some s
  | _ :: _, [] => none
  | c :: cs, x :: xs => if x.toLower = c.toLower then litCI cs xs else none

/-- Case-sensitive literal match at the head of the input. -/
def litEx : List Char → List Char → Option (List Char)
  | [], s => some s
  | _ :: _, [] => none
  | c :: cs, x :: xs => if x = c then litEx cs xs else none

/-- `\s*` — drop leading whitespace. -/
def espacios (s : List Char) : List Char := s.dropWhile Char.isWhitespace

/-- Decimal value of a digit list. -/
def valorDigitos (ds : List Char) : Nat :=
  ds.foldl (fun acc c => acc * 10 + (c.toNat - '0'.toNat)) 0

/-- `(\d+)` greedy — one or more digits at the head of the input; returns the
captured number and the rest. -/
def digitos (s : List Char) : Option (Nat × List Char) :=
  match s.takeWhile Char.isDigit with
  | [] => none
  | ds => some (valorDigitos ds, s.dropWhile Char.isDigit)

/-- First alternative of the pattern in `obtener_cuotas_sin_interes`:
`Mismo precio en\s*(\d+)\s*cuotas`, anchored at the current position. -/
def patronMismoPrecio (s : List Char) : Option Nat :=
  (litCI "Mismo precio en".toList s).bind fun r1 =>
  (digitos (espacios r1)).bind fun nr =>
  (litCI "cuotas".toList (espacios nr.2)).map fun _ => nr.1

/-- Second alternative of the pattern in `obtener_cuotas_sin_interes`:
`(\d+)\s*cuotas\s*sin\s*interés`, anchored at the current position. -/
def patronCuotasSinInteres (s : List Char) : Option Nat :=
  (digitos s).bind fun nr =>
  (litCI "cuotas".toList (espacios nr.2)).bind fun r2 =>
  (litCI "sin".toList (espacios r2)).bind fun r3 =>
  (litCI "interés".toList (espacios r3)).map fun _ => nr.1

/-- `re.search` over the alternation: scan start positions left to right, at
each position try the first alternative, then the second. -/
def buscarCuotas : List Char → Option Nat
  | [] => none
  | s@(_ :: resto) =>
    match patronMismoPrecio s with
    | some n => some n
    | none =>
      match patronCuotasSinInteres s with
      | some n => some n
      | none => buscarCuotas resto

/-- `obtener_cuotas_sin_interes` (procesador_datos.py, lines 38–56).
`none` models a non-string input (`NaN`/`None`); the empty string is falsy in
Python, so both return 0.  Otherwise the captured group of the first match is
returned, or 0 when there is no match. -/
def obtener_cuotas_sin_interes (texto : Option String) : Nat :=
  match texto with
  | none => 0
  | some t =>
    if t.isEmpty then 0
    else
      match buscarCuotas t.toList with
      | some n => n
      | none => 0

/-- Case-insensitive substring test, modelling Python's
`needle in haystack.lower()` / `Series.str.contains(..., case=False)`. -/
def contieneCI (aguja : String) (pajar : String) : Bool :=
  go aguja.toList pajar.toList
where
  go (a : List Char) : List Char → Bool
    | [] => (litCI a []).isSome
    | s@(_ :: resto) => (litCI a s).isSome || go a resto

/-- `extraer_id_producto` (procesador_datos.py, lines 32–36): search for the
pattern `/p/(MLA\d+)` and return the captured group; `re.search` is
case-sensitive here and `\d+` is greedy. -/
def extraer_id_producto (url : String) : Option String :=
  go url.toList
where
  idAqui (s : List Char) : Option String :=
    (litEx "/p/MLA".toList s).bind fun r =>
      match r.takeWhile Char.isDigit with
      | [] => none
      | ds => some ("MLA" ++ String.mk ds)
  go : List Char → Option String
    | [] => none
    | s@(_ :: resto) =>
      match idAqui s with
      | some i => some i
      | none => go resto

/-! ## Reputation normalization -/

/-- The enricher's reputation mapping (procesador_datos.py, lines 103–108):
`Series.map(reputacion_map)` sends unmapped codes to `NaN`, and
`.fillna('Regular')` turns exactly those into `"Regular"`. -/
def reputacion_map (r : String) : String :=
  if r = "5_green" then "MercadoLíder Platinum"
  else if r = "4_light_green" then "MercadoLíder Gold"
  else if r = "3_yellow" then "MercadoLíder"
  else "Regular"

/-- The KPI query's numeric reputation score (generador_kpis.py, lines 38–41):
`CASE reputacion_vendedor WHEN ... END AS reputacion_valor`. -/
def reputacion_valor (r : String) : ℚ :=
  if r = "MercadoLíder Platinum" then 5
  else if r = "MercadoLíder Gold" then 4
  else if r = "MercadoLíder" then 3
  else 2


/-! ## Offer parser (`_parsear_vendedor`, scraper_producto_catalogo.py lines 11–58)

One raw seller-offer JSON fragment.  Components the source reads are modelled
as optional fields (`none` = component absent).  The `price` component's value
goes through Python `float(...)`: `precio := some (some q)` is a convertible
value, `precio := some none` is a `null`/non-numeric value, on which
`float(componente.get("price", {}).get("value"))` raises (`TypeError` /
`ValueError`).  Fields of the source dict not consumed by any verified claim
(`condicion_producto`, `tipo_envio` text assembly internals,
`seller_thermometer_info`) are carried as plain data or omitted. -/

structure ComponenteVendedor where
  name : Option String
  reputation_level : Option String
  extra_info : List String
  deriving DecidableEq, Repr

structure ItemJson where
  id : Option String
  price : Option (Option ℚ)
  payment_title : Option String
  shipping_text : Option String
  seller : Option ComponenteVendedor
  deriving DecidableEq, Repr

structure Vendedor where
  item_id : Option String
  texto_cuotas : String
  precio : Option ℚ
  tipo_envio : String
  nombre_vendedor : Option String
  reputacion_vendedor : String
  link_publicacion : String
  envio_full : Bool
  seller_extra_info : List String
  deriving DecidableEq, Repr

/-- Python `item_id_actual.replace('MLA', '')`: delete the non-overlapping
occurrences of `"MLA"`, scanning left to right. -/
def sinMLA : List Char → List Char
  | [] => []
  | 'M' :: 'L' :: 'A' :: resto => sinMLA resto
  | c :: resto => c :: sinMLA resto

/-- `_parsear_vendedor item full_filment_data`: builds the offer dict.  A price
component whose value does not convert raises, modelled as `.error ()`; the
exception propagates to the caller (the page-level list comprehension).  When
the price component is absent the `precio` field keeps its initial `None`. -/
def parsear_vendedor (item : ItemJson) (full_filment_data : List (String × Bool)) :
    Except Unit Vendedor :=
  match item.price with
  | some none => .error ()
  | _ => .ok
    { item_id := item.id
      texto_cuotas := (item.payment_title).getD ""
      precio := match item.price with
        | some (some q) => some q
        | _ => none
      tipo_envio := (item.shipping_text).getD ""
      nombre_vendedor := match item.seller with
        | some s => s.name
        | none => none
      reputacion_vendedor := match item.seller with
        | some s =>
          match s.reputation_level with
          | some r => if r.isEmpty then "Sin reputación" else r
          | none => "Sin reputación"
        | none => "Sin reputación"
      link_publicacion := match item.id with
        | some i =>
          "https://articulo.mercadolibre.com.ar/MLA-" ++ String.mk (sinMLA i.toList)
        | none => ""
      envio_full := match item.id with
        | some i => ((full_filment_data.lookup i).getD false)
        | none => false
      seller_extra_info := match item.seller with
        | some s => s.extra_info
        | none => [] }

/-! ## Catalog crawler (`extraer_competidores_catalogo`, lines 67–192)

The browser environment is a function from page number to the outcome of
fetching that page: `ok items ful` is a loaded page whose embedded JSON holds
the offer item list `items` and the melidata fulfillment pairs `ful`;
`timeout` is a `PlaywrightTimeoutError` on navigation (the loop breaks);
`exn` is any other exception while fetching or decoding the page (caught by
the session-level handler, ending the crawl with the accumulated list).
The `while True:` loop is run on explicit fuel; every theorem below supplies
enough fuel to reach the terminating page, so the fuel-exhausted branch is
never exercised by the claims. -/

inductive PaginaResp where
  | ok (items : List ItemJson) (ful : List (String × Bool))
  | timeout
  | exn
  deriving DecidableEq, Repr

/-- The page-level list comprehension
`[_parsear_vendedor(item, full_filment_data) for item in items_vendedores_pagina]`:
the first raising offer aborts the whole comprehension. -/
def paginaVendedores (items : List ItemJson) (ful : List (String × Bool)) :
    Except Unit (List Vendedor) :=
  items.mapM (fun it => parsear_vendedor it ful)

structure CrawlResultado where
  vendedores : List Vendedor
  ultimaPaginaPedida : Nat
  deriving DecidableEq, Repr

/-- The pagination loop of `extraer_competidores_catalogo` (lines 154–184).
Order of events per iteration, as in the source: navigate and read the state
JSON (timeout → break; other exception → session handler), decode, take the
item list, break if it is empty, parse all items of the page (an offer whose
price raises aborts the page and reaches the session handler), extend the
accumulator, advance the page counter. -/
def crawlGo (env : Nat → PaginaResp) : Nat → Nat → List Vendedor → CrawlResultado
  | 0, pagina, acc => ⟨acc, pagina - 1⟩
  | fuel + 1, pagina, acc =>
    match env pagina with
    | .timeout => ⟨acc, pagina⟩
    | .exn => ⟨acc, pagina⟩
    | .ok items ful =>
      if items.isEmpty then ⟨acc, pagina⟩
      else
        match paginaVendedores items ful with
        | .error _ => ⟨acc, pagina⟩
        | .ok vs => crawlGo env fuel (pagina + 1) (acc ++ vs)

/-- Outcome of one call of `extraer_competidores_catalogo`:
either the function returns normally (with the offers list, the highest page
number it requested, and whether `await browser.close()` in the `finally:`
block ran), or it raises to its caller. -/
inductive CrawlSalida where
  | retorna (vendedores : List Vendedor) (ultimaPagina : Nat) (navegadorCerrado : Bool)
  | lanza (navegadorCerrado : Bool)
  deriving DecidableEq, Repr

/-- `extraer_competidores_catalogo` (lines 67–192).  `initOk` is whether the
session initialization (lines 84–117: browser launch, context creation,
loading and sanitizing `cookies.json`, page creation, stealth, routing)
completes without raising; that code runs before the `try:` of line 119, so
an exception there propagates to the caller and the `finally:` of line 188
(`await browser.close()`) is never entered.  Once the `try:` body is entered,
every exception is caught by the `except` of line 186 and the function falls
through the `finally:` to `return vendedores_totales, ...` with whatever was
accumulated. -/
def extraer_competidores_catalogo (initOk : Bool) (env : Nat → PaginaResp)
    (fuel : Nat) : CrawlSalida :=
  if initOk then
    let r := crawlGo env fuel 1 []
    .retorna r.vendedores r.ultimaPaginaPedida true
  else
    .lanza false

/-- Concatenation of the per-page offer lists for pages `a`, `a+1`, …,
`a+m-1`. -/
def concatDesde (vss : Nat → List Vendedor) : Nat → Nat → List Vendedor
  | _, 0 => []
  | a, m + 1 => vss a ++ concatDesde vss (a + 1) m

/-! ## Ingestion guard and enricher (`procesador_datos.py`) -/

/-- One row of the raw-offers table (`registros_precios`), as written by
`procesar_y_enriquecer_datos` (lines 87–145).  `item_id` goes through
`.astype(str)`, which renders a Python `None` as the string `"None"`;
`precio` goes through `.astype(float)`, where a `None` becomes `NaN` —
modelled as `none`.  Columns not consumed by any verified claim
(`nombre_producto`, categories, `condicion_producto`, `link_publicacion`)
are omitted from the row model. -/
structure FilaAlmacenada where
  fecha_extraccion : Nat
  id_catalogo : String
  item_id : String
  nombre_vendedor : Option String
  precio : Option ℚ
  reputacion_vendedor : String
  cuotas_sin_interes : Nat
  envio_full : Bool
  envio_gratis : Bool
  envio_rapido : Bool
  factura_a : Bool
  deriving DecidableEq, Repr

/-- The per-row enrichment of `procesar_y_enriquecer_datos` (lines 94–114):
attach `id_catalogo` and today's date, normalize reputation, derive the
shipping flags from the shipping text, the installments from the payment
text, and the invoice flag from the seller extra info subtitles. -/
def enriquecer (id_producto : String) (hoy : Nat) (v : Vendedor) : FilaAlmacenada :=
  { fecha_extraccion := hoy
    id_catalogo := id_producto
    item_id := (v.item_id).getD "None"
    nombre_vendedor := v.nombre_vendedor
    precio := v.precio
    reputacion_vendedor := reputacion_map v.reputacion_vendedor
    cuotas_sin_interes := obtener_cuotas_sin_interes (some v.texto_cuotas)
    envio_full := v.envio_full
    envio_gratis := contieneCI "gratis" v.tipo_envio
    envio_rapido := contieneCI "mañana" v.tipo_envio
    factura_a := v.seller_extra_info.any (fun s => contieneCI "factura a" s) }

/-- Availability of the PostgreSQL connection for one operation:
`caido` makes `psycopg2.connect`/`execute` raise `psycopg2.Error`. -/
inductive EstadoDb where
  | disponible
  | caido
  deriving DecidableEq, Repr

/-- `producto_ya_scrapeado_hoy` (lines 58–84): `SELECT EXISTS (SELECT 1 FROM
{table} WHERE id_catalogo = %s AND fecha_extraccion = %s)`.  On
`psycopg2.Error` the `except` branch returns `False`. -/
def producto_ya_scrapeado_hoy (db : EstadoDb) (tabla : List FilaAlmacenada)
    (id_producto : String) (fecha : Nat) : Bool :=
  match db with
  | .caido => false
  | .disponible =>
    tabla.any (fun f => f.id_catalogo = id_producto && f.fecha_extraccion = fecha)

/-- Observable state of one ingestion run: the destination table plus two
counters instrumenting how often the scraper was invoked and how often a
batch insert was attempted. -/
structure EstadoPipeline where
  tabla : List FilaAlmacenada
  invocacionesCrawl : Nat
  intentosInsert : Nat
  deriving DecidableEq, Repr

/-- Environment of one `ejecutar_proceso_para_url` call: database availability
at check time and at insert time, and the offer list the crawler returns for
this URL (`datos_vendedores` of line 164). -/
structure EntornoIngesta where
  chequeoDb : EstadoDb
  insertDb : EstadoDb
  crawl : List Vendedor
  deriving Repr

/-- `procesar_y_enriquecer_datos` (lines 87–145): nothing to do on an empty
batch; otherwise enrich every row and insert them in one transaction — on
`psycopg2.Error` the `except` branch returns with nothing committed (the
`with psycopg2.connect(...)` transaction never reaches `conn.commit()`). -/
def procesar_y_enriquecer_datos (env : EntornoIngesta) (hoy : Nat)
    (st : EstadoPipeline) (datos_extraidos : List Vendedor) (id_producto : String) :
    EstadoPipeline :=
  if datos_extraidos.isEmpty then st
  else
    let filas := datos_extraidos.map (enriquecer id_producto hoy)
    match env.insertDb with
    | .caido => { st with intentosInsert := st.intentosInsert + 1 }
    | .disponible =>
      { st with
        intentosInsert := st.intentosInsert + 1
        tabla := st.tabla ++ filas }

/-- `ejecutar_proceso_para_url` (lines 147–179): extract the catalog id (no id
⇒ return), run the idempotency guard (already scraped today ⇒ return), invoke
the crawler, and hand a non-empty result to the enricher/persister. -/
def ejecutar_proceso_para_url (env : EntornoIngesta) (hoy : Nat)
    (st : EstadoPipeline) (url : String) : EstadoPipeline :=
  match extraer_id_producto url with
  | none => st
  | some id_producto =>
    if producto_ya_scrapeado_hoy env.chequeoDb st.tabla id_producto hoy then st
    else
      let st1 := { st with invocacionesCrawl := st.invocacionesCrawl + 1 }
      if env.crawl.isEmpty then st1
      else procesar_y_enriquecer_datos env hoy st1 env.crawl id_producto

/-! ## KPI aggregation (`generador_kpis.py`) -/

/-- One row of the raw table as read back by the KPI query (the columns the
query consumes).  `precio` is `NUMERIC(12,2) NOT NULL` in the schema, hence a
plain `ℚ` here. -/
structure FilaCruda where
  fecha_extraccion : Nat
  id_catalogo : String
  item_id : String
  nombre_vendedor : String
  precio : ℚ
  reputacion_vendedor : String
  envio_rapido : Bool
  envio_full : Bool
  envio_gratis : Bool
  factura_a : Bool
  deriving DecidableEq, Repr

/-- The ordering key of `ROW_NUMBER() OVER(PARTITION BY id_catalogo ORDER BY
precio ASC, item_id ASC)` (generador_kpis.py line 43): price ascending, ties
broken by `item_id` ascending. -/
def claveMenor (a b : FilaCruda) : Prop :=
  a.precio < b.precio ∨ (a.precio = b.precio ∧ a.item_id ≤ b.item_id)

instance : DecidableRel claveMenor := fun a b => by
  unfold claveMenor; infer_instance

instance : IsTotal FilaCruda claveMenor := ⟨fun a b => by
  rcases lt_trichotomy a.precio b.precio with h | h | h
  · exact Or.inl (Or.inl h)
  · rcases le_total a.item_id b.item_id with h2 | h2
    · exact Or.inl (Or.inr ⟨h, h2⟩)
    · exact Or.inr (Or.inr ⟨h.symm, h2⟩)
  · exact Or.inr (Or.inl h)⟩

instance : IsTrans FilaCruda claveMenor := ⟨fun a b c hab hbc => by
  rcases hab with h1 | ⟨e1, l1⟩ <;> rcases hbc with h2 | ⟨e2, l2⟩
  · exact Or.inl (h1.trans h2)
  · exact Or.inl (e2 ▸ h1)
  · exact Or.inl (e1 ▸ h2)
  · exact Or.inr ⟨e1.trans e2, l1.trans l2⟩⟩


/-- Attach ranks `k, k+1, …` to the elements of a list. -/
def rangosDesde : Nat → List FilaCruda → List (FilaCruda × Nat)
  | _, [] => []
  | k, f :: fs => (f, k) :: rangosDesde (k + 1) fs

/-- `posicion_precio_actual`: every row of the partition paired with its
`ROW_NUMBER` (1-based) in the `precio ASC, item_id ASC` order. -/
def conRango (g : List FilaCruda) : List (FilaCruda × Nat) :=
  rangosDesde 1 (g.insertionSort claveMenor)

/-- `AVG(...)`: `none` on an empty group (never produced by `GROUP BY`). -/
def promedio (l : List ℚ) : Option ℚ :=
  if l.isEmpty then none else some (l.sum / l.length)

/-- `AVG(CAST(b AS INT)) * 100`. -/
def porcentaje (l : List Bool) : Option ℚ :=
  (promedio (l.map (fun b => if b then 1 else 0))).map (· * 100)

/-- One output row of the KPI query / one row of the daily KPI table.  Each
field mirrors one aggregate of the `SELECT` at generador_kpis.py lines 48–74. -/
structure KpiFila where
  fecha : Option Nat
  id_catalogo : String
  n_competidores : Nat
  precio_minimo : Option ℚ
  precio_promedio : Option ℚ
  precio_maximo : Option ℚ
  nuestro_precio : Option ℚ
  posicion_precio : Option Nat
  pct_con_envio_rapido : Option ℚ
  pct_con_full : Option ℚ
  pct_con_envio_gratis : Option ℚ
  pct_con_factura_a : Option ℚ
  competidor_lider_precio_id : Option String
  competidor_lider_precio_nombre : Option String
  diferencia_vs_lider : Option ℚ
  reputacion_promedio_valor : Option ℚ
  deriving DecidableEq, Repr

/-- The grouped `SELECT` of the KPI query, evaluated on one `GROUP BY
id_catalogo` partition `g` (all rows of the day with catalog id `c`).
`es_nuestro` is `nombre_vendedor = seller`; ranks come from `conRango` over
the same partition; SQL aggregates over the `CASE WHEN ... THEN x END`
columns ignore the `NULL`s, which `filterMap`/`filter` reproduce. -/
def kpiGrupo (seller : String) (c : String) (g : List FilaCruda) : KpiFila :=
  let rangos := conRango g
  let precios := g.map (·.precio)
  let nuestros := (g.filter (fun f => f.nombre_vendedor = seller)).map (·.precio)
  { fecha := (g.map (·.fecha_extraccion)).max?
    id_catalogo := c
    n_competidores := g.length
    precio_minimo := precios.min?
    precio_promedio := promedio precios
    precio_maximo := precios.max?
    nuestro_precio := nuestros.max?
    posicion_precio :=
      (rangos.filterMap (fun p =>
        if p.1.nombre_vendedor = seller then some p.2 else none)).max?
    pct_con_envio_rapido := porcentaje (g.map (·.envio_rapido))
    pct_con_full := porcentaje (g.map (·.envio_full))
    pct_con_envio_gratis := porcentaje (g.map (·.envio_gratis))
    pct_con_factura_a := porcentaje (g.map (·.factura_a))
    competidor_lider_precio_id :=
      (rangos.filterMap (fun p =>
        if p.2 = 1 then some p.1.item_id else none)).max?
    competidor_lider_precio_nombre :=
      (rangos.filterMap (fun p =>
        if p.2 = 1 then some p.1.nombre_vendedor else none)).max?
    diferencia_vs_lider :=
      match nuestros.max?, precios.min? with
      | some a, some b => some (a - b)
      | _, _ => none
    reputacion_promedio_valor :=
      promedio (g.map (fun f => reputacion_valor f.reputacion_vendedor)) }

/-- The full KPI query (lines 30–75): restrict the source table to
`fecha_extraccion = CURRENT_DATE` (`hoy`), partition by `id_catalogo`, one
output row per partition.  Note the query has no run-date parameter: the date
filter is hardwired to `CURRENT_DATE`. -/
def query_kpis (seller : String) (hoy : Nat) (tabla : List FilaCruda) :
    List KpiFila :=
  let dia := tabla.filter (fun f => f.fecha_extraccion = hoy)
  ((dia.map (·.id_catalogo)).dedup).map
    (fun c => kpiGrupo seller c (dia.filter (fun f => f.id_catalogo = c)))

/-- Key comparison of `ON CONFLICT (fecha, id_catalogo)`. -/
def mismaClave (nueva r : KpiFila) : Bool :=
  r.fecha = nueva.fecha && r.id_catalogo = nueva.id_catalogo

/-- The upsert of one computed row into the KPI table (the `INSERT ... SELECT
* FROM temp_kpis ON CONFLICT (fecha, id_catalogo) DO UPDATE SET c =
EXCLUDED.c` of lines 105–109; `update_cols` lists every column of the
computed frame, so a conflicting row is overwritten wholesale). -/
def upsert_fila (tabla : List KpiFila) (nueva : KpiFila) : List KpiFila :=
  if tabla.any (mismaClave nueva) then
    tabla.map (fun r => if mismaClave nueva r then nueva else r)
  else tabla ++ [nueva]

/-- The batch upsert of one aggregator run. -/
def upsert_batch (tabla : List KpiFila) (lote : List KpiFila) : List KpiFila :=
  lote.foldl upsert_fila tabla

/-- Point lookup in the KPI table by its key. -/
def buscar_kpi (tabla : List KpiFila) (fecha : Option Nat) (c : String) :
    Option KpiFila :=
  tabla.find? (fun r => r.fecha = fecha && r.id_catalogo = c)

/-- Parameters of `def ejecutar_generacion_kpis(source_table, kpi_table,
nuestro_seller_name)` (generador_kpis.py line 9): positional, no defaults, no
varargs. -/
def parametros_ejecutar_generacion_kpis : List String :=
  ["source_table", "kpi_table", "nuestro_seller_name"]

/-- Number of positional arguments at the call site in `main.py` line 76:
`ejecutar_generacion_kpis(tabla_crudos, tabla_kpis, seller_name,
fecha_ejecucion)`. -/
def argumentos_llamada_main : Nat := 4

/-- Python call semantics for a function whose parameters are all positional
without defaults: the call binds iff the argument count equals the parameter
count; otherwise it raises `TypeError`. -/
def llamadaPythonValida (numParametros numArgumentos : Nat) : Bool :=
  numParametros = numArgumentos

/-- Decidable statement that pages `a, …, a+m-1` all load, carry a non-empty
item list, and parse without an exception, with per-page offers `vss`. -/
def paginasBuenas (env : Nat → PaginaResp) (its : Nat → List ItemJson)
    (fuls : Nat → List (String × Bool)) (vss : Nat → List Vendedor)
    (a m : Nat) : Bool :=
  (List.range' a m).all fun i =>
    env i == .ok (its i) (fuls i) && !(its i).isEmpty &&
      ((paginaVendedores (its i) (fuls i)).toOption == some (vss i))

/-! Concrete witness environments for the crawler claims. -/

/-- A well-formed offer item. -/
def itemW : ItemJson :=
  { id := some "MLA1", price := some (some 100), payment_title := none,
    shipping_text := none, seller := none }

/-- A second well-formed offer item. -/
def itemW2 : ItemJson :=
  { id := some "MLA3", price := some (some 90),
    payment_title := some "6 cuotas sin interés",
    shipping_text := none, seller := none }

/-- An offer item whose price component carries a non-convertible value:
`float(...)` raises on it. -/
def itemMalo : ItemJson :=
  { id := some "MLA2", price := some none, payment_title := none,
    shipping_text := none, seller := none }

/-- An offer item with no price component at all. -/
def itemSinPrecio : ItemJson :=
  { id := some "MLA4", price := none, payment_title := none,
    shipping_text := none, seller := none }

/-- Parse of `itemW`. -/
def vendW : Vendedor :=
  { item_id := some "MLA1", texto_cuotas := "", precio := some 100,
    tipo_envio := "", nombre_vendedor := none,
    reputacion_vendedor := "Sin reputación",
    link_publicacion := "https://articulo.mercadolibre.com.ar/MLA-1",
    envio_full := false, seller_extra_info := [] }

/-- Parse of `itemW2`. -/
def vendW2 : Vendedor :=
  { item_id := some "MLA3", texto_cuotas := "6 cuotas sin interés",
    precio := some 90, tipo_envio := "", nombre_vendedor := none,
    reputacion_vendedor := "Sin reputación",
    link_publicacion := "https://articulo.mercadolibre.com.ar/MLA-3",
    envio_full := false, seller_extra_info := [] }

def itsW : Nat → List ItemJson := fun _ => [itemW]

def fulsW : Nat → List (String × Bool) := fun _ => []

def vssW : Nat → List Vendedor := fun _ => [vendW]

/-- Pages 1 and 2 hold one offer each, page 3 is empty. -/
def envC4 : Nat → PaginaResp
  | 1 => .ok [itemW] []
  | 2 => .ok [itemW] []
  | _ => .ok [] []

/-- Page 1 holds one offer, fetching page 2 raises a non-timeout exception. -/
def envC5 : Nat → PaginaResp
  | 1 => .ok [itemW] []
  | 2 => .exn
  | _ => .timeout

/-- Page 1: a good offer, the malformed-price offer, another good offer.
Page 2 still has items; page 3 would be empty. -/
def envC6 : Nat → PaginaResp
  | 1 => .ok [itemW, itemMalo, itemW2] []
  | 2 => .ok [itemW] []
  | _ => .ok [] []

/-- Good page 1; page 2 contains the malformed-price offer among good ones. -/
def itsC6 : Nat → List ItemJson :=
  fun k => if k = 2 then [itemW, itemMalo, itemW2] else [itemW]

def envC6b : Nat → PaginaResp :=
  fun k => if k ≤ 2 then .ok (itsC6 k) [] else .ok [] []

/-- A raw row of the concrete C1 scenario. -/
def filaC1 (d : Nat) (c i v : String) (p : ℚ) : FilaCruda :=
  { fecha_extraccion := d, id_catalogo := c, item_id := i, nombre_vendedor := v,
    precio := p, reputacion_vendedor := "Regular", envio_rapido := false,
    envio_full := false, envio_gratis := false, factura_a := false }

/-- The group of the concrete C1 scenario: seller A at 100, sellers B and C
tied at 90. -/
def grupoC1 (d : Nat) (c idA idB idC : String) : List FilaCruda :=
  [filaC1 d c idA "A" 100, filaC1 d c idB "B" 90, filaC1 d c idC "C" 90]

/-! ## Theorems -/

theorem claveMenor_refl (a : FilaCruda) : claveMenor a a :=
  Or.inr ⟨rfl, le_refl _⟩


/-! ## Helper lemmas on the crawler loop -/


theorem paginasBuenas_spec {env : Nat → PaginaResp} {its : Nat → List ItemJson}
    {fuls : Nat → List (String × Bool)} {vss : Nat → List Vendedor} {a m : Nat}
    (h : paginasBuenas env its fuls vss a m = true) :
    ∀ i, a ≤ i → i < a + m →
      env i = .ok (its i) (fuls i) ∧ (its i).isEmpty = false ∧
      paginaVendedores (its i) (fuls i) = .ok (vss i) := by
  intro i h1 h2
  have hi : i ∈ List.range' a m := by
    rw [List.mem_range']
    exact ⟨i - a, by omega, by omega⟩
  have := (List.all_eq_true.mp h) i hi
  simp only [Bool.and_eq_true, beq_iff_eq, Bool.not_eq_true'] at this
  refine ⟨this.1.1, this.1.2, ?_⟩
  have h2 := this.2
  cases hcase : paginaVendedores (its i) (fuls i) with
  | error e => rw [hcase] at h2; exact absurd h2 (by simp [Except.toOption])
  | ok vs =>
    rw [hcase] at h2
    simp only [Except.toOption, Option.some.injEq] at h2
    rw [h2]

/-- Running the loop across `m` good pages starting at page `k` appends their
parsed offers and moves on to page `k + m`. -/
theorem crawlGo_avanza (env : Nat → PaginaResp) (its : Nat → List ItemJson)
    (fuls : Nat → List (String × Bool)) (vss : Nat → List Vendedor) :
    ∀ (m k fuel : Nat) (acc : List Vendedor),
      (∀ i, k ≤ i → i < k + m →
        env i = .ok (its i) (fuls i) ∧ (its i).isEmpty = false ∧
        paginaVendedores (its i) (fuls i) = .ok (vss i)) →
      m < fuel →
      crawlGo env fuel k acc =
        crawlGo env (fuel - m) (k + m) (acc ++ concatDesde vss k m) := by
  intro m
  induction m with
  | zero => intro k fuel acc _ _; simp [concatDesde]
  | succ m ih =>
    intro k fuel acc h hf
    obtain ⟨f, rfl⟩ : ∃ f, fuel = f + 1 := ⟨fuel - 1, by omega⟩
    have hk := h k le_rfl (by omega)
    have paso : crawlGo env (f + 1) k acc = crawlGo env f (k + 1) (acc ++ vss k) := by
      simp only [crawlGo, hk.1, hk.2.1, hk.2.2, Bool.false_eq_true, if_false]
    rw [paso,
      ih (k + 1) f (acc ++ vss k) (fun i h1 h2 => h i (by omega) (by omega)) (by omega)]
    have e1 : f - m = f + 1 - (m + 1) := by omega
    have e2 : k + 1 + m = k + (m + 1) := by omega
    rw [e1, e2, List.append_assoc]
    rfl

/-- A page whose item list is empty terminates the loop at that page. -/
theorem crawlGo_pagina_vacia (env : Nat → PaginaResp) (ful : List (String × Bool))
    (n fuel : Nat) (acc : List Vendedor) (h : env n = .ok [] ful) (hf : 0 < fuel) :
    crawlGo env fuel n acc = ⟨acc, n⟩ := by
  obtain ⟨f, rfl⟩ : ∃ f, fuel = f + 1 := ⟨fuel - 1, by omega⟩
  simp only [crawlGo, h, List.isEmpty_nil, if_true]

/-- A page raising a non-timeout exception while fetching terminates the loop. -/
theorem crawlGo_pagina_exn (env : Nat → PaginaResp)
    (n fuel : Nat) (acc : List Vendedor) (h : env n = .exn) (hf : 0 < fuel) :
    crawlGo env fuel n acc = ⟨acc, n⟩ := by
  obtain ⟨f, rfl⟩ : ∃ f, fuel = f + 1 := ⟨fuel - 1, by omega⟩
  simp only [crawlGo, h]

/-- A non-empty page whose parse raises terminates the loop, discarding that
page's offers. -/
theorem crawlGo_pagina_error (env : Nat → PaginaResp) (items : List ItemJson)
    (ful : List (String × Bool)) (n fuel : Nat) (acc : List Vendedor)
    (h : env n = .ok items ful) (hne : items.isEmpty = false)
    (herr : paginaVendedores items ful = .error ()) (hf : 0 < fuel) :
    crawlGo env fuel n acc = ⟨acc, n⟩ := by
  obtain ⟨f, rfl⟩ : ∃ f, fuel = f + 1 := ⟨fuel - 1, by omega⟩
  simp only [crawlGo, h, hne, herr, Bool.false_eq_true, if_false]

/-! ## Claims on the crawler (C4, C5, C6) -/

/-- C4: for every page-fetch sequence in which pages 1 through n-1 return
non-empty offer item lists (each parsing without error) and page n returns
zero items, the crawl returns exactly the concatenation of the offers parsed
from pages 1 through n-1, and no request for page n+1 is attempted (the
highest page requested is n). -/
theorem paginacion_termina (env : Nat → PaginaResp) (its : Nat → List ItemJson)
    (fuls : Nat → List (String × Bool)) (vss : Nat → List Vendedor)
    (n fuel : Nat) (hn : 1 ≤ n) (hfuel : n ≤ fuel)
    (hbuenas : paginasBuenas env its fuls vss 1 (n - 1) = true)
    (hvacia : env n = .ok [] (fuls n)) :
    extraer_competidores_catalogo true env fuel =
      .retorna (concatDesde vss 1 (n - 1)) n true := by
  have hloop : crawlGo env fuel 1 [] = ⟨concatDesde vss 1 (n - 1), n⟩ := by
    rw [crawlGo_avanza env its fuls vss (n - 1) 1 fuel []
      (fun i h1 h2 => paginasBuenas_spec hbuenas i h1 h2) (by omega)]
    have e : 1 + (n - 1) = n := by omega
    rw [e, List.nil_append,
      crawlGo_pagina_vacia env (fuls n) n (fuel - (n - 1))
        (concatDesde vss 1 (n - 1)) hvacia (by omega)]
  simp only [extraer_competidores_catalogo, if_true, hloop]

/-- C5 (amended): once the browser session is initialized and the `try:` body
entered, any exception raised while fetching or parsing a page is caught by
the session-level handler: the function returns the offers accumulated from
the earlier pages (partial results are kept), does not raise, and the
`finally:` closes the browser.  (Exceptions raised during initialization
itself — before the `try:` — propagate instead; see the counterexample.) -/
theorem crawl_captura_excepciones (env : Nat → PaginaResp)
    (its : Nat → List ItemJson) (fuls : Nat → List (String × Bool))
    (vss : Nat → List Vendedor) (m fuel : Nat)
    (hm : 1 ≤ m) (hfuel : m ≤ fuel)
    (hbuenas : paginasBuenas env its fuls vss 1 (m - 1) = true)
    (hexn : env m = .exn) :
    extraer_competidores_catalogo true env fuel =
      .retorna (concatDesde vss 1 (m - 1)) m true := by
  have hloop : crawlGo env fuel 1 [] = ⟨concatDesde vss 1 (m - 1), m⟩ := by
    rw [crawlGo_avanza env its fuls vss (m - 1) 1 fuel []
      (fun i h1 h2 => paginasBuenas_spec hbuenas i h1 h2) (by omega)]
    have e : 1 + (m - 1) = m := by omega
    rw [e, List.nil_append,
      crawlGo_pagina_exn env m (fuel - (m - 1))
        (concatDesde vss 1 (m - 1)) hexn (by omega)]
  simp only [extraer_competidores_catalogo, if_true, hloop]

/-- C5 counterexample: an exception raised during session initialization
(lines 84–117, e.g. an unreadable `cookies.json` making `json.load` raise, or
a failing browser launch) happens before the `try:` of line 119, so it
propagates to the caller and the `finally: await browser.close()` never
runs — against the claim that the crawl never raises and closes the browser
on every exit path. -/
theorem crawl_lanza_en_init :
    extraer_competidores_catalogo false (fun _ => .timeout) 1 = .lanza false :=
  rfl

/-- C6 (amended): an offer whose price component holds a non-convertible
value makes `float(...)` raise inside the page-level list comprehension; the
session handler catches it, so the whole page is discarded (its well-formed
offers included) and pagination stops there — only offers of earlier pages
are returned.  An offer whose price component is absent is not skipped at
all: it parses with a null price. -/
theorem precio_invalido_aborta (env : Nat → PaginaResp)
    (its : Nat → List ItemJson) (fuls : Nat → List (String × Bool))
    (vss : Nat → List Vendedor) (m fuel : Nat)
    (item2 : ItemJson) (ful2 : List (String × Bool))
    (hm : 1 ≤ m) (hfuel : m ≤ fuel)
    (hbuenas : paginasBuenas env its fuls vss 1 (m - 1) = true)
    (hmala : env m = .ok (its m) (fuls m))
    (hnv : (its m).isEmpty = false)
    (herr : paginaVendedores (its m) (fuls m) = .error ())
    (hsin : item2.price = none) :
    extraer_competidores_catalogo true env fuel =
      .retorna (concatDesde vss 1 (m - 1)) m true ∧
    (parsear_vendedor item2 ful2).toOption.map Vendedor.precio = some none := by
  constructor
  · have hloop : crawlGo env fuel 1 [] = ⟨concatDesde vss 1 (m - 1), m⟩ := by
      rw [crawlGo_avanza env its fuls vss (m - 1) 1 fuel []
        (fun i h1 h2 => paginasBuenas_spec hbuenas i h1 h2) (by omega)]
      have e : 1 + (m - 1) = m := by omega
      rw [e, List.nil_append,
        crawlGo_pagina_error env (its m) (fuls m) m (fuel - (m - 1))
          (concatDesde vss 1 (m - 1)) hmala hnv herr (by omega)]
    simp only [extraer_competidores_catalogo, if_true, hloop]
  · simp only [parsear_vendedor, hsin, Except.toOption, Option.map_some']


theorem paginacion_termina_testigo :
    ((1 : Nat) ≤ 3 ∧ (3 : Nat) ≤ 5 ∧
      paginasBuenas envC4 itsW fulsW vssW 1 2 = true ∧
      envC4 3 = .ok [] (fulsW 3)) ∧
    extraer_competidores_catalogo true envC4 5 =
      .retorna (concatDesde vssW 1 2) 3 true :=
  ⟨⟨by decide, by decide, by decide, rfl⟩,
    paginacion_termina envC4 itsW fulsW vssW 3 5 (by decide) (by decide)
      (by decide) rfl⟩


theorem crawl_captura_excepciones_testigo :
    ((1 : Nat) ≤ 2 ∧ (2 : Nat) ≤ 5 ∧
      paginasBuenas envC5 itsW fulsW vssW 1 1 = true ∧ envC5 2 = .exn) ∧
    extraer_competidores_catalogo true envC5 5 =
      .retorna (concatDesde vssW 1 1) 2 true :=
  ⟨⟨by decide, by decide, by decide, rfl⟩,
    crawl_captura_excepciones envC5 itsW fulsW vssW 2 5 (by decide) (by decide)
      (by decide) rfl⟩


/-- C6 counterexample: with `envC6` the crawl returns no offers at all and
never requests page 2 — although the two well-formed offers of page 1 parse
fine on their own and page 2 had items.  The claim predicts that only the
malformed offer is skipped and the pipeline continues with the remaining
offers and pages. -/
theorem precio_invalido_contraejemplo :
    extraer_competidores_catalogo true envC6 10 = .retorna [] 1 true ∧
    paginaVendedores [itemW, itemW2] [] = .ok [vendW, vendW2] ∧
    envC6 2 = .ok [itemW] [] :=
  ⟨rfl, rfl, rfl⟩


theorem precio_invalido_aborta_testigo :
    ((1 : Nat) ≤ 2 ∧ (2 : Nat) ≤ 5 ∧
      paginasBuenas envC6b itsC6 fulsW vssW 1 1 = true ∧
      envC6b 2 = .ok (itsC6 2) (fulsW 2) ∧
      (itsC6 2).isEmpty = false ∧
      paginaVendedores (itsC6 2) (fulsW 2) = .error () ∧
      itemSinPrecio.price = none) ∧
    (extraer_competidores_catalogo true envC6b 5 =
        .retorna (concatDesde vssW 1 1) 2 true ∧
      (parsear_vendedor itemSinPrecio []).toOption.map Vendedor.precio =
        some none) :=
  ⟨⟨by decide, by decide, by decide, rfl, by decide, rfl, rfl⟩,
    precio_invalido_aborta envC6b itsC6 fulsW vssW 2 5 itemSinPrecio []
      (by decide) (by decide) (by decide) rfl (by decide) rfl rfl⟩

/-! ## Helper lemmas on the ranking -/

theorem rangosDesde_rango_ge :
    ∀ (t : List FilaCruda) (k : Nat) (p : FilaCruda × Nat),
      p ∈ rangosDesde k t → k ≤ p.2
  | [], k, p, h => by simp [rangosDesde] at h
  | f :: fs, k, p, h => by
    simp only [rangosDesde, List.mem_cons] at h
    rcases h with rfl | h
    · simp
    · exact le_trans (Nat.le_succ k) (rangosDesde_rango_ge fs (k + 1) p h)

/-- The `CASE WHEN posicion_precio_actual = 1 THEN x END` aggregate keeps
exactly the head of the sorted partition. -/
theorem filtraRango1 {α : Type} (f : FilaCruda → α) (L : FilaCruda)
    (t : List FilaCruda) :
    (rangosDesde 1 (L :: t)).filterMap
      (fun p => if p.2 = 1 then some (f p.1) else none) = [f L] := by
  have hnil : (rangosDesde 2 t).filterMap
      (fun p => if p.2 = 1 then some (f p.1) else none) = [] := by
    rw [List.filterMap_eq_nil_iff]
    intro p hp
    have := rangosDesde_rango_ge t 2 p hp
    rw [if_neg (by omega)]
  simp [rangosDesde, List.filterMap_cons, hnil]

theorem max?_unico {α : Type} [Max α] (a : α) : ([a] : List α).max? = some a :=
  rfl

/-- The rank-1 offer of a non-empty partition: it belongs to the partition,
the two `market leader` aggregates of `kpiGrupo` return its `item_id` and
`nombre_vendedor`, and it is `(precio, item_id)`-lexicographically minimal
among all rows of the partition. -/
theorem lider_del_grupo (seller c : String) (g : List FilaCruda) (hg : g ≠ []) :
    ∃ L ∈ g,
      (kpiGrupo seller c g).competidor_lider_precio_id = some L.item_id ∧
      (kpiGrupo seller c g).competidor_lider_precio_nombre =
        some L.nombre_vendedor ∧
      ∀ f ∈ g, claveMenor L f := by
  have hperm := List.perm_insertionSort claveMenor g
  have hs : g.insertionSort claveMenor ≠ [] := by
    intro h
    rw [h] at hperm
    exact hg hperm.symm.eq_nil
  obtain ⟨L, t, hLt⟩ := List.exists_cons_of_ne_nil hs
  have hsorted := List.sorted_insertionSort claveMenor g
  rw [hLt] at hsorted
  refine ⟨L, ?_, ?_, ?_, ?_⟩
  · exact (List.mem_insertionSort claveMenor).mp (hLt ▸ List.mem_cons_self L t)
  · show ((conRango g).filterMap
        (fun p => if p.2 = 1 then some p.1.item_id else none)).max? =
      some L.item_id
    rw [conRango, hLt, filtraRango1, max?_unico]
  · show ((conRango g).filterMap
        (fun p => if p.2 = 1 then some p.1.nombre_vendedor else none)).max? =
      some L.nombre_vendedor
    rw [conRango, hLt, filtraRango1, max?_unico]
  · intro f hf
    have : f ∈ L :: t := hLt ▸ (List.mem_insertionSort claveMenor).mpr hf
    rcases List.mem_cons.mp this with rfl | hmem
    · exact claveMenor_refl f
    · exact List.rel_of_sorted_cons hsorted f hmem

/-! ## Claim C1: ranking and market leader -/


/-- C1: in the KPI aggregation, each `(date, catalog_id)` partition is ranked
by price ascending with ties broken by `item_id` ascending, and the market
leader fields come from the rank-1 offer: for every non-empty partition the
leader aggregates return the `item_id` and `nombre_vendedor` of a row of the
partition that is `(precio, item_id)`-lexicographically minimal.  Concretely,
for offers [(A,100),(B,90),(C,90)] with B's offer id smaller than C's, the
leader is B's offer, `precio_minimo` = 90, and with `our_seller_name` = "A":
`posicion_precio` = 3 and `diferencia_vs_lider` = 10. -/
theorem ranking_lider_grupo (seller c : String) (g : List FilaCruda)
    (hg : g ≠ []) (d : Nat) (idA idB idC : String) (hBC : idB < idC) :
    (∃ L ∈ g,
      (kpiGrupo seller c g).competidor_lider_precio_id = some L.item_id ∧
      (kpiGrupo seller c g).competidor_lider_precio_nombre =
        some L.nombre_vendedor ∧
      ∀ f ∈ g, claveMenor L f) ∧
    ((kpiGrupo "A" c (grupoC1 d c idA idB idC)).competidor_lider_precio_id =
        some idB ∧
      (kpiGrupo "A" c (grupoC1 d c idA idB idC)).competidor_lider_precio_nombre =
        some "B" ∧
      (kpiGrupo "A" c (grupoC1 d c idA idB idC)).precio_minimo = some 90 ∧
      (kpiGrupo "A" c (grupoC1 d c idA idB idC)).posicion_precio = some 3 ∧
      (kpiGrupo "A" c (grupoC1 d c idA idB idC)).diferencia_vs_lider =
        some 10) := by
  have hBC' : claveMenor (filaC1 d c idB "B" 90) (filaC1 d c idC "C" 90) :=
    Or.inr ⟨rfl, le_of_lt hBC⟩
  have hAB : ¬ claveMenor (filaC1 d c idA "A" 100) (filaC1 d c idB "B" 90) := by
    rintro (h | ⟨e, -⟩)
    · exact absurd h (by norm_num [filaC1])
    · exact absurd e (by norm_num [filaC1])
  have hAC : ¬ claveMenor (filaC1 d c idA "A" 100) (filaC1 d c idC "C" 90) := by
    rintro (h | ⟨e, -⟩)
    · exact absurd h (by norm_num [filaC1])
    · exact absurd e (by norm_num [filaC1])
  have h1 : List.orderedInsert claveMenor (filaC1 d c idB "B" 90)
      [filaC1 d c idC "C" 90] =
      [filaC1 d c idB "B" 90, filaC1 d c idC "C" 90] := by
    simp only [List.orderedInsert]
    rw [if_pos hBC']
  have h2 : List.orderedInsert claveMenor (filaC1 d c idA "A" 100)
      [filaC1 d c idB "B" 90, filaC1 d c idC "C" 90] =
      [filaC1 d c idB "B" 90, filaC1 d c idC "C" 90, filaC1 d c idA "A" 100] := by
    simp only [List.orderedInsert]
    rw [if_neg hAB, if_neg hAC]
  have hsort : (grupoC1 d c idA idB idC).insertionSort claveMenor =
      [filaC1 d c idB "B" 90, filaC1 d c idC "C" 90, filaC1 d c idA "A" 100] := by
    show List.orderedInsert claveMenor (filaC1 d c idA "A" 100)
        (List.orderedInsert claveMenor (filaC1 d c idB "B" 90)
          (List.orderedInsert claveMenor (filaC1 d c idC "C" 90) [])) = _
    rw [show List.orderedInsert claveMenor (filaC1 d c idC "C" 90) [] =
        [filaC1 d c idC "C" 90] from rfl, h1, h2]
  refine ⟨lider_del_grupo seller c g hg, ?_, ?_, ?_, ?_, ?_⟩
  · show ((conRango (grupoC1 d c idA idB idC)).filterMap
        (fun p => if p.2 = 1 then some p.1.item_id else none)).max? = some idB
    rw [conRango, hsort, filtraRango1, max?_unico]
    rfl
  · show ((conRango (grupoC1 d c idA idB idC)).filterMap
        (fun p => if p.2 = 1 then some p.1.nombre_vendedor else none)).max? =
      some "B"
    rw [conRango, hsort, filtraRango1, max?_unico]
    rfl
  · show (((grupoC1 d c idA idB idC).map (·.precio)).min?) = some 90
    show (([100, 90, 90] : List ℚ).min?) = some 90
    decide
  · show ((conRango (grupoC1 d c idA idB idC)).filterMap
        (fun p => if p.1.nombre_vendedor = "A" then some p.2 else none)).max? =
      some 3
    rw [conRango, hsort]
    simp [rangosDesde, List.filterMap_cons, filaC1]
  · show (match (((grupoC1 d c idA idB idC).filter
          (fun f => f.nombre_vendedor = "A")).map (·.precio)).max?,
        (((grupoC1 d c idA idB idC).map (·.precio)).min?) with
      | some a, some b => some (a - b)
      | _, _ => none) = some (10 : ℚ)
    have hn : (((grupoC1 d c idA idB idC).filter
        (fun f => f.nombre_vendedor = "A")).map (·.precio)).max? =
        some (100 : ℚ) := by
      show (([100] : List ℚ).max?) = some 100
      decide
    have hmin : (((grupoC1 d c idA idB idC).map (·.precio)).min?) =
        some (90 : ℚ) := by
      show (([100, 90, 90] : List ℚ).min?) = some 90
      decide
    rw [hn, hmin]
    norm_num

theorem ranking_lider_grupo_testigo :
    (grupoC1 10 "MLA900" "MLA1" "MLA2" "MLA3" ≠ [] ∧
      ("MLA2" : String) < "MLA3") ∧
    ((∃ L ∈ grupoC1 10 "MLA900" "MLA1" "MLA2" "MLA3",
        (kpiGrupo "A" "MLA900"
            (grupoC1 10 "MLA900" "MLA1" "MLA2" "MLA3")).competidor_lider_precio_id =
          some L.item_id ∧
        (kpiGrupo "A" "MLA900"
            (grupoC1 10 "MLA900" "MLA1" "MLA2" "MLA3")).competidor_lider_precio_nombre =
          some L.nombre_vendedor ∧
        ∀ f ∈ grupoC1 10 "MLA900" "MLA1" "MLA2" "MLA3", claveMenor L f) ∧
      ((kpiGrupo "A" "MLA900"
          (grupoC1 10 "MLA900" "MLA1" "MLA2" "MLA3")).competidor_lider_precio_id =
            some "MLA2" ∧
        (kpiGrupo "A" "MLA900"
          (grupoC1 10 "MLA900" "MLA1" "MLA2" "MLA3")).competidor_lider_precio_nombre =
            some "B" ∧
        (kpiGrupo "A" "MLA900"
          (grupoC1 10 "MLA900" "MLA1" "MLA2" "MLA3")).precio_minimo = some 90 ∧
        (kpiGrupo "A" "MLA900"
          (grupoC1 10 "MLA900" "MLA1" "MLA2" "MLA3")).posicion_precio = some 3 ∧
        (kpiGrupo "A" "MLA900"
          (grupoC1 10 "MLA900" "MLA1" "MLA2" "MLA3")).diferencia_vs_lider =
            some 10)) :=
  ⟨⟨by decide, String.lt_iff_toList_lt.mpr (by decide)⟩,
    ranking_lider_grupo "A" "MLA900" (grupoC1 10 "MLA900" "MLA1" "MLA2" "MLA3")
      (by decide) 10 "MLA1" "MLA2" "MLA3"
      (String.lt_iff_toList_lt.mpr (by decide))⟩

/-! ## Claim C7: installments extraction -/

/-- C7: the installments extractor maps "Mismo precio en 6 cuotas" and
"6 cuotas sin interés" both to 6; when both phrasings occur, the first
pattern of the alternation captures the number (re.search tries the first
alternative first at each position); a non-string (absent) input yields 0;
and every input in which the scan finds no match yields 0. -/
theorem cuotas_dos_frases (t : String) (h : buscarCuotas t.toList = none) :
    obtener_cuotas_sin_interes (some "Mismo precio en 6 cuotas") = 6 ∧
    obtener_cuotas_sin_interes (some "6 cuotas sin interés") = 6 ∧
    obtener_cuotas_sin_interes (some "Mismo precio en 6 cuotas sin interés") = 6 ∧
    obtener_cuotas_sin_interes none = 0 ∧
    obtener_cuotas_sin_interes (some t) = 0 := by
  refine ⟨by decide, by decide, by decide, rfl, ?_⟩
  have h' : buscarCuotas t.data = none := h
  simp [obtener_cuotas_sin_interes, h']

theorem cuotas_dos_frases_testigo :
    buscarCuotas "Hasta 12 cuotas fijas".toList = none ∧
    (obtener_cuotas_sin_interes (some "Mismo precio en 6 cuotas") = 6 ∧
      obtener_cuotas_sin_interes (some "6 cuotas sin interés") = 6 ∧
      obtener_cuotas_sin_interes (some "Mismo precio en 6 cuotas sin interés") = 6 ∧
      obtener_cuotas_sin_interes none = 0 ∧
      obtener_cuotas_sin_interes (some "Hasta 12 cuotas fijas") = 0) :=
  ⟨by decide, cuotas_dos_frases "Hasta 12 cuotas fijas" (by decide)⟩

/-! ## Claim C8: the aggregator's calling contract -/

/-- C8: the KPI entry point `ejecutar_generacion_kpis` is defined with three
parameters (`source_table`, `kpi_table`, `nuestro_seller_name`) and its query
filters on `CURRENT_DATE`; the call site in `main.py` passes four arguments
(including `fecha_ejecucion`), so the call does not bind and raises
`TypeError` — there is no `run_date` parameter selecting the rows. -/
theorem llamada_kpis_aridad :
    llamadaPythonValida parametros_ejecutar_generacion_kpis.length
        argumentos_llamada_main = false ∧
    parametros_ejecutar_generacion_kpis.length = 3 ∧
    argumentos_llamada_main = 4 := by
  decide

/-! ## Claim C9: average reputation score -/

/-- C9: for every non-empty partition, `reputacion_promedio_valor` is the
mean of the numeric reputation mapping (Platinum=5, Gold=4, MercadoLíder=3,
anything else=2) over the group; and the enricher's tier mapping composed
with the query's scoring sends the source codes `5_green`/`4_light_green`/
`3_yellow` to 5/4/3 while every other code is absorbed into `"Regular"`
(score 2) without raising. -/
theorem reputacion_promedio_grupo (seller c : String) (g : List FilaCruda)
    (hg : g ≠ []) (codigo : String)
    (h5 : codigo ≠ "5_green") (h4 : codigo ≠ "4_light_green")
    (h3 : codigo ≠ "3_yellow") :
    (kpiGrupo seller c g).reputacion_promedio_valor =
      some ((g.map (fun f => reputacion_valor f.reputacion_vendedor)).sum /
        (g.length : ℚ)) ∧
    reputacion_valor (reputacion_map "5_green") = 5 ∧
    reputacion_valor (reputacion_map "4_light_green") = 4 ∧
    reputacion_valor (reputacion_map "3_yellow") = 3 ∧
    reputacion_map codigo = "Regular" ∧
    reputacion_valor (reputacion_map codigo) = 2 := by
  have hreg : reputacion_map codigo = "Regular" := by
    simp [reputacion_map, h5, h4, h3]
  refine ⟨?_, by decide, by decide, by decide, hreg, by rw [hreg]; decide⟩
  have hne : (g.map (fun f => reputacion_valor f.reputacion_vendedor)).isEmpty =
      false := by
    cases g with
    | nil => exact absurd rfl hg
    | cons a t => rfl
  show promedio (g.map (fun f => reputacion_valor f.reputacion_vendedor)) = _
  simp [promedio, hne]

theorem reputacion_promedio_grupo_testigo :
    ([filaC1 10 "MLA900" "MLA1" "A" 100] ≠ [] ∧
      ("Sin reputación" : String) ≠ "5_green" ∧
      ("Sin reputación" : String) ≠ "4_light_green" ∧
      ("Sin reputación" : String) ≠ "3_yellow") ∧
    ((kpiGrupo "A" "MLA900" [filaC1 10 "MLA900" "MLA1" "A" 100]).reputacion_promedio_valor =
        some ((([filaC1 10 "MLA900" "MLA1" "A" 100]).map
          (fun f => reputacion_valor f.reputacion_vendedor)).sum /
          (([filaC1 10 "MLA900" "MLA1" "A" 100]).length : ℚ)) ∧
      reputacion_valor (reputacion_map "5_green") = 5 ∧
      reputacion_valor (reputacion_map "4_light_green") = 4 ∧
      reputacion_valor (reputacion_map "3_yellow") = 3 ∧
      reputacion_map "Sin reputación" = "Regular" ∧
      reputacion_valor (reputacion_map "Sin reputación") = 2) :=
  ⟨⟨by decide, by decide, by decide, by decide⟩,
    reputacion_promedio_grupo "A" "MLA900" [filaC1 10 "MLA900" "MLA1" "A" 100]
      (by decide) "Sin reputación" (by decide) (by decide) (by decide)⟩

/-! ## Claim C3: upsert semantics of the KPI table -/

theorem mismaClave_self (n : KpiFila) : mismaClave n n = true := by
  simp [mismaClave]

theorem find?_tras_reemplazo (n : KpiFila) :
    ∀ t : List KpiFila, t.any (mismaClave n) = true →
      (t.map (fun r => if mismaClave n r then n else r)).find? (mismaClave n) =
        some n
  | [], h => by simp at h
  | a :: t, h => by
    cases ha : mismaClave n a with
    | true =>
      simp [List.map_cons, ha, List.find?_cons_of_pos, mismaClave_self n]
    | false =>
      have h' : t.any (mismaClave n) = true := by simpa [ha] using h
      rw [List.map_cons]
      simp only [ha, Bool.false_eq_true, if_false]
      rw [List.find?_cons_of_neg _ (by simp [ha])]
      exact find?_tras_reemplazo n t h'

theorem find?_tras_append (n : KpiFila) :
    ∀ t : List KpiFila, t.any (mismaClave n) = false →
      (t ++ [n]).find? (mismaClave n) = some n
  | [], _ => by simp [List.find?, mismaClave_self n]
  | a :: t, h => by
    have ha : mismaClave n a = false ∧ t.any (mismaClave n) = false := by
      simpa using h
    rw [List.cons_append, List.find?_cons_of_neg _ (by simp [ha.1])]
    exact find?_tras_append n t ha.2

/-- Looking a row up by its own key right after upserting it always returns
that row, whatever the table held before. -/
theorem buscar_tras_upsert (t : List KpiFila) (n : KpiFila) :
    buscar_kpi (upsert_fila t n) n.fecha n.id_catalogo = some n := by
  show (upsert_fila t n).find? (mismaClave n) = some n
  rw [upsert_fila]
  cases hany : t.any (mismaClave n) with
  | true =>
    simp only [hany, if_true]
    exact find?_tras_reemplazo n t hany
  | false =>
    simp only [hany, Bool.false_eq_true, if_false]
    exact find?_tras_append n t hany

/-- C3: running the aggregator a second time for the same
`(fecha, id_catalogo)` key overwrites every column of the existing KPI row
(the `ON CONFLICT ... DO UPDATE SET` lists every column), so the row found
under that key afterwards is exactly the row computed from the second run's
raw inputs — no merging with the first run's values. -/
theorem kpi_upsert_sobrescribe (tabla : List KpiFila) (seller c : String)
    (g1 g2 : List FilaCruda) (d : Nat)
    (_h1 : (kpiGrupo seller c g1).fecha = some d)
    (h2 : (kpiGrupo seller c g2).fecha = some d) :
    buscar_kpi
      (upsert_fila (upsert_fila tabla (kpiGrupo seller c g1))
        (kpiGrupo seller c g2))
      (some d) c = some (kpiGrupo seller c g2) := by
  have hfin := buscar_tras_upsert (upsert_fila tabla (kpiGrupo seller c g1))
    (kpiGrupo seller c g2)
  rw [h2] at hfin
  exact hfin

theorem kpi_upsert_sobrescribe_testigo :
    ((kpiGrupo "A" "MLA900" [filaC1 7 "MLA900" "MLA1" "A" 100]).fecha = some 7 ∧
      (kpiGrupo "A" "MLA900" [filaC1 7 "MLA900" "MLA1" "A" 80]).fecha = some 7) ∧
    buscar_kpi
      (upsert_fila
        (upsert_fila [] (kpiGrupo "A" "MLA900" [filaC1 7 "MLA900" "MLA1" "A" 100]))
        (kpiGrupo "A" "MLA900" [filaC1 7 "MLA900" "MLA1" "A" 80]))
      (some 7) "MLA900" =
      some (kpiGrupo "A" "MLA900" [filaC1 7 "MLA900" "MLA1" "A" 80]) :=
  ⟨⟨by decide, by decide⟩,
    kpi_upsert_sobrescribe [] "A" "MLA900" [filaC1 7 "MLA900" "MLA1" "A" 100]
      [filaC1 7 "MLA900" "MLA1" "A" 80] 7 (by decide) (by decide)⟩

/-! ## Claims C2 and C10: ingestion guard -/

/-- C2: with the database reachable, calling the ingestion entry point twice
for the same `(catalog_id, date)` results in exactly one crawl invocation and
one batch of raw rows written: the first call (on a store with no row for the
key) crawls once and appends the enriched batch; the second call finds the
rows, skips crawling entirely and writes nothing — it leaves the state
untouched. -/
theorem ingesta_idempotente (env : EntornoIngesta) (hoy : Nat)
    (st0 : EstadoPipeline) (url id_producto : String)
    (hid : extraer_id_producto url = some id_producto)
    (hdb : env.chequeoDb = .disponible)
    (hins : env.insertDb = .disponible)
    (hcrawl : env.crawl ≠ [])
    (hnuevo : producto_ya_scrapeado_hoy .disponible st0.tabla id_producto hoy =
      false) :
    (ejecutar_proceso_para_url env hoy st0 url).invocacionesCrawl =
        st0.invocacionesCrawl + 1 ∧
    (ejecutar_proceso_para_url env hoy st0 url).intentosInsert =
        st0.intentosInsert + 1 ∧
    (ejecutar_proceso_para_url env hoy st0 url).tabla =
        st0.tabla ++ env.crawl.map (enriquecer id_producto hoy) ∧
    ejecutar_proceso_para_url env hoy
        (ejecutar_proceso_para_url env hoy st0 url) url =
      ejecutar_proceso_para_url env hoy st0 url := by
  have hne : env.crawl.isEmpty = false := by
    cases h : env.crawl with
    | nil => exact absurd h hcrawl
    | cons a t => simp [h]
  have hnuevo' : producto_ya_scrapeado_hoy env.chequeoDb st0.tabla
      id_producto hoy = false := by rw [hdb]; exact hnuevo
  have hst1 : ejecutar_proceso_para_url env hoy st0 url =
      { tabla := st0.tabla ++ env.crawl.map (enriquecer id_producto hoy),
        invocacionesCrawl := st0.invocacionesCrawl + 1,
        intentosInsert := st0.intentosInsert + 1 } := by
    simp only [ejecutar_proceso_para_url, hid, hnuevo', Bool.false_eq_true,
      if_false, hne, procesar_y_enriquecer_datos, hins]
  have hexiste : producto_ya_scrapeado_hoy env.chequeoDb
      (ejecutar_proceso_para_url env hoy st0 url).tabla id_producto hoy =
      true := by
    rw [hdb, hst1]
    obtain ⟨v, hv⟩ := List.exists_mem_of_ne_nil env.crawl hcrawl
    simp only [producto_ya_scrapeado_hoy]
    rw [List.any_eq_true]
    exact ⟨enriquecer id_producto hoy v,
      List.mem_append_right _ (List.mem_map_of_mem _ hv),
      by simp [enriquecer]⟩
  refine ⟨by rw [hst1], by rw [hst1], by rw [hst1], ?_⟩
  generalize hST : ejecutar_proceso_para_url env hoy st0 url = ST at hexiste ⊢
  simp only [ejecutar_proceso_para_url, hid, hexiste, if_true]

theorem ingesta_idempotente_testigo :
    (extraer_id_producto "https://www.mercadolibre.com.ar/foco/p/MLA12345" =
        some "MLA12345" ∧
      ({ chequeoDb := .disponible, insertDb := .disponible,
          crawl := [vendW] } : EntornoIngesta).chequeoDb = .disponible ∧
      ({ chequeoDb := .disponible, insertDb := .disponible,
          crawl := [vendW] } : EntornoIngesta).insertDb = .disponible ∧
      ({ chequeoDb := .disponible, insertDb := .disponible,
          crawl := [vendW] } : EntornoIngesta).crawl ≠ [] ∧
      producto_ya_scrapeado_hoy .disponible
        ({ tabla := [], invocacionesCrawl := 0,
            intentosInsert := 0 } : EstadoPipeline).tabla "MLA12345" 7 =
          false) ∧
    ((ejecutar_proceso_para_url
        { chequeoDb := .disponible, insertDb := .disponible, crawl := [vendW] }
        7 { tabla := [], invocacionesCrawl := 0, intentosInsert := 0 }
        "https://www.mercadolibre.com.ar/foco/p/MLA12345").invocacionesCrawl =
        0 + 1 ∧
      (ejecutar_proceso_para_url
        { chequeoDb := .disponible, insertDb := .disponible, crawl := [vendW] }
        7 { tabla := [], invocacionesCrawl := 0, intentosInsert := 0 }
        "https://www.mercadolibre.com.ar/foco/p/MLA12345").intentosInsert =
        0 + 1 ∧
      (ejecutar_proceso_para_url
        { chequeoDb := .disponible, insertDb := .disponible, crawl := [vendW] }
        7 { tabla := [], invocacionesCrawl := 0, intentosInsert := 0 }
        "https://www.mercadolibre.com.ar/foco/p/MLA12345").tabla =
        [] ++ [vendW].map (enriquecer "MLA12345" 7) ∧
      ejecutar_proceso_para_url
        { chequeoDb := .disponible, insertDb := .disponible, crawl := [vendW] }
        7
        (ejecutar_proceso_para_url
          { chequeoDb := .disponible, insertDb := .disponible, crawl := [vendW] }
          7 { tabla := [], invocacionesCrawl := 0, intentosInsert := 0 }
          "https://www.mercadolibre.com.ar/foco/p/MLA12345")
        "https://www.mercadolibre.com.ar/foco/p/MLA12345" =
      ejecutar_proceso_para_url
        { chequeoDb := .disponible, insertDb := .disponible, crawl := [vendW] }
        7 { tabla := [], invocacionesCrawl := 0, intentosInsert := 0 }
        "https://www.mercadolibre.com.ar/foco/p/MLA12345") :=
  ⟨⟨by decide, rfl, rfl, by decide, rfl⟩,
    ingesta_idempotente
      { chequeoDb := .disponible, insertDb := .disponible, crawl := [vendW] }
      7 { tabla := [], invocacionesCrawl := 0, intentosInsert := 0 }
      "https://www.mercadolibre.com.ar/foco/p/MLA12345" "MLA12345"
      (by decide) rfl rfl (by decide) rfl⟩

/-- C10: when the existence check's database query raises, the guard returns
`False` (the product is treated as not yet scraped), so the crawl is invoked
and the batch insert is attempted rather than the product's run being
aborted — whatever the store already holds. -/
theorem chequeo_caido_procede (env : EntornoIngesta) (hoy : Nat)
    (st0 : EstadoPipeline) (url id_producto : String)
    (hid : extraer_id_producto url = some id_producto)
    (hdb : env.chequeoDb = .caido)
    (hcrawl : env.crawl ≠ []) :
    producto_ya_scrapeado_hoy env.chequeoDb st0.tabla id_producto hoy = false ∧
    (ejecutar_proceso_para_url env hoy st0 url).invocacionesCrawl =
      st0.invocacionesCrawl + 1 ∧
    (ejecutar_proceso_para_url env hoy st0 url).intentosInsert =
      st0.intentosInsert + 1 := by
  have hguardia : producto_ya_scrapeado_hoy env.chequeoDb st0.tabla
      id_producto hoy = false := by
    rw [hdb]
    rfl
  have hne : env.crawl.isEmpty = false := by
    cases h : env.crawl with
    | nil => exact absurd h hcrawl
    | cons a t => simp [h]
  refine ⟨hguardia, ?_, ?_⟩ <;>
    cases hins : env.insertDb <;>
      simp only [ejecutar_proceso_para_url, hid, hguardia, Bool.false_eq_true,
        if_false, hne, procesar_y_enriquecer_datos, hins]

/-- The C10 witness runs against a store that already holds today's row for
the product: the broken check still reports "not scraped" and the pipeline
crawls and inserts again. -/
theorem chequeo_caido_procede_testigo :
    (extraer_id_producto "https://www.mercadolibre.com.ar/foco/p/MLA12345" =
        some "MLA12345" ∧
      ({ chequeoDb := .caido, insertDb := .disponible,
          crawl := [vendW] } : EntornoIngesta).chequeoDb = .caido ∧
      ({ chequeoDb := .caido, insertDb := .disponible,
          crawl := [vendW] } : EntornoIngesta).crawl ≠ []) ∧
    (producto_ya_scrapeado_hoy
        ({ chequeoDb := .caido, insertDb := .disponible,
            crawl := [vendW] } : EntornoIngesta).chequeoDb
        ({ tabla := [enriquecer "MLA12345" 7 vendW], invocacionesCrawl := 1,
            intentosInsert := 1 } : EstadoPipeline).tabla "MLA12345" 7 =
        false ∧
      (ejecutar_proceso_para_url
        { chequeoDb := .caido, insertDb := .disponible, crawl := [vendW] } 7
        { tabla := [enriquecer "MLA12345" 7 vendW], invocacionesCrawl := 1,
          intentosInsert := 1 }
        "https://www.mercadolibre.com.ar/foco/p/MLA12345").invocacionesCrawl =
        1 + 1 ∧
      (ejecutar_proceso_para_url
        { chequeoDb := .caido, insertDb := .disponible, crawl := [vendW] } 7
        { tabla := [enriquecer "MLA12345" 7 vendW], invocacionesCrawl := 1,
          intentosInsert := 1 }
        "https://www.mercadolibre.com.ar/foco/p/MLA12345").intentosInsert =
        1 + 1) :=
  ⟨⟨by decide, rfl, by decide⟩,
    chequeo_caido_procede
      { chequeoDb := .caido, insertDb := .disponible, crawl := [vendW] } 7
      { tabla := [enriquecer "MLA12345" 7 vendW], invocacionesCrawl := 1,
        intentosInsert := 1 }
      "https://www.mercadolibre.com.ar/foco/p/MLA12345" "MLA12345"
      (by decide) rfl (by decide)⟩
